import Mathlib

/-!
Verification of the Garba Practice Tracker (a single-file Streamlit app,
`app.py`) against its natural-language specification.

The app is shallowly embedded: a practice-session row becomes `SessionRow`,
the per-user pandas DataFrame becomes `DataFrame` (a row list plus flags
recording which columns are present), the Streamlit `st.cache_data`
wrapper becomes an explicit `AppState`/`CacheEntry` model, and the pieces
of `app.py` that the claims mention (mood mapping, summary statistics,
mood-trend pipeline, session label building and prefix resolution,
cache invalidation on mutation, the authentication gate) become Lean
functions mirroring those lines of source.

The repository modules `auth.py` and `sheets.py` are not part of the
provided source tree; where a claim depends on them, the corresponding
definition is marked `Modelled from the spec:` and follows the
specification text (repository operations report success/failure as a
boolean and, on success, append/rewrite/remove one row).

Dates: in the loaded DataFrame the `Date` column already holds parsed
datetimes (or `NaT` for unparseable values), which we model as
`Option DateVal`; `pd.to_datetime(..., errors := coerce)` is then the
identity on that representation and `dropna` keeps the `some` rows.
-/

/-- A calendar date as produced by the date parser (`pd.to_datetime`). -/
structure DateVal where
  year : Nat
  month : Nat
  day : Nat
deriving DecidableEq, Repr

/-- One practice-session row of the user's sheet.  `date` is `none` when the
stored value failed to parse (pandas `NaT`). -/
structure SessionRow where
  sessionId : List Char
  userId : String
  date : Option DateVal
  duration : Int
  intensity : String
  mood : String
  calories : Int
  songs : String
deriving DecidableEq, Repr

/-- The editable (non-key) fields sent to the repository on create/update
(`new_session_data` / `updated_data` in `app.py`). -/
structure SessionFields where
  date : Option DateVal
  duration : Int
  intensity : String
  songs : String
  mood : String
  calories : Int
deriving DecidableEq, Repr

/-- The per-user DataFrame: its rows together with flags recording which
columns are present (the code guards every column access with
`if col in df.columns`). -/
structure DataFrame where
  rows : List SessionRow
  hasDate : Bool
  hasMood : Bool
  hasDuration : Bool
  hasCalories : Bool
  hasSessionId : Bool
deriving DecidableEq, Repr

/- ---------------------------------------------------------------------
C1: mood-to-ordinal mapping (app.py lines 119-121)
`mood_mapping = {"Tired": 1, "Neutral": 2, "Achieved": 3, "Happy": 4,
"Energized": 5}` followed by `.map(mood_mapping).fillna(2.5)`.
--------------------------------------------------------------------- -/

/-- `mood_mapping` from app.py line 119: the dict lookup, `none` when the
mood is not a key. -/
def mood_mapping (m : String) : Option ℚ :=
  if m = "Tired" then some 1
  else if m = "Neutral" then some 2
  else if m = "Achieved" then some 3
  else if m = "Happy" then some 4
  else if m = "Energized" then some 5
  else none

/-- app.py line 121: `df_mood[MoodValue] = df_mood[Mood].map(mood_mapping).fillna(2.5)`. -/
def moodValue (m : String) : ℚ :=
  (mood_mapping m).getD (5 / 2)

/- ---------------------------------------------------------------------
C7: edit-form enum fallback (app.py lines 205-212)
--------------------------------------------------------------------- -/

/-- app.py line 206. -/
def mood_options : List String :=
  ["Energized", "Happy", "Tired", "Neutral", "Achieved"]

/-- app.py line 210. -/
def intensity_options : List String :=
  ["Low", "Medium", "High"]

/-- app.py line 207: `mood_options.index(mood) if mood in mood_options else 3`. -/
def current_mood_index (m : String) : Nat :=
  if m ∈ mood_options then mood_options.indexOf m else 3

/-- app.py line 211: `intensity_options.index(i) if i in intensity_options else 1`. -/
def current_intensity_index (i : String) : Nat :=
  if i ∈ intensity_options then intensity_options.indexOf i else 1

/-- The option the mood selectbox is pre-filled with (`index=current_mood_index`). -/
def moodPrefill (m : String) : String :=
  mood_options.getD (current_mood_index m) ""

/-- The option the intensity selectbox is pre-filled with. -/
def intensityPrefill (i : String) : String :=
  intensity_options.getD (current_intensity_index i) ""

/- ---------------------------------------------------------------------
C5 / C9: dashboard summary statistics (app.py lines 94-97)
--------------------------------------------------------------------- -/

/-- app.py line 94: `total_sessions = len(user_sessions_df)`. -/
def total_sessions (df : DataFrame) : Nat :=
  df.rows.length

/-- The sum of the `Duration` column. -/
def sum_duration (df : DataFrame) : Int :=
  (df.rows.map (fun r => r.duration)).sum

/-- The sum of the `Calories` column. -/
def sum_calories (df : DataFrame) : Int :=
  (df.rows.map (fun r => r.calories)).sum

/-- app.py line 95: `df[Duration].sum() / 60 if Duration in df.columns else 0`. -/
def total_hours (df : DataFrame) : ℚ :=
  if df.hasDuration then (sum_duration df : ℚ) / 60 else 0

/-- app.py line 96: `df[Duration].mean() if Duration in df.columns else 0`. -/
def avg_duration (df : DataFrame) : ℚ :=
  if df.hasDuration then (sum_duration df : ℚ) / (total_sessions df : ℚ) else 0

/-- app.py line 97: `df[Calories].sum() if Calories in df.columns else 0`. -/
def total_calories (df : DataFrame) : Int :=
  if df.hasCalories then sum_calories df else 0

/-- Spec wording: "sum(duration)/60 → total hours". -/
def specTotalHours (df : DataFrame) : ℚ :=
  (sum_duration df : ℚ) / 60

/-- Spec wording: "mean(duration)", the arithmetic mean of the Duration column. -/
def specMeanDuration (df : DataFrame) : ℚ :=
  (sum_duration df : ℚ) / (df.rows.length : ℚ)

/-- Spec wording: "sum(calories) (integer)". -/
def specTotalCalories (df : DataFrame) : Int :=
  sum_calories df

/- ---------------------------------------------------------------------
C8: mood-trend pipeline (app.py lines 110-134)
--------------------------------------------------------------------- -/

/-- What the mood-trend section renders. -/
inductive MoodTrendRender
  | missingColumns
  | notEnoughValidDates
  | chart (points : List (DateVal × ℚ))
deriving DecidableEq, Repr

/-- app.py lines 112-115: `df_mood = df.copy()`, coerce dates, drop rows whose
date failed to parse. -/
def df_mood_rows (df : DataFrame) : List SessionRow :=
  df.rows.filter (fun r => r.date.isSome)

/-- app.py lines 110-134: the mood-trend section of the Dashboard.  The chart
plots `MoodValue` over `Date` for exactly the rows that survived the date
filter. -/
def moodTrendRender (df : DataFrame) : MoodTrendRender :=
  if df.hasDate && df.hasMood && !df.rows.isEmpty then
    let surv := df_mood_rows df
    if surv.isEmpty then
      MoodTrendRender.notEnoughValidDates
    else
      MoodTrendRender.chart
        (surv.map (fun r => (r.date.getD { year := 0, month := 0, day := 0 }, moodValue r.mood)))
  else
    MoodTrendRender.missingColumns

/- ---------------------------------------------------------------------
C3 / C4 / C6: cached load, mutation steps and the authentication gate
(app.py lines 16-21, 34-43, 66-82, 219-233, 240-244).
The repository (`sheets.py`) is not part of the provided source tree;
its operations are modelled from the spec (section 4.2): each returns
success/failure and, on success, appends/rewrites/removes one row.  The
`ok : Bool` argument stands for the outcome the repository reports
(e.g. a remote write failing).
--------------------------------------------------------------------- -/

/-- One `st.cache_data` entry for the current user: the cached row list and
its age in seconds (the entry expires after 300 seconds). -/
structure CacheEntry where
  data : List SessionRow
  age : Nat
deriving DecidableEq, Repr

/-- The state the page controller sees: the remote store (all users' rows)
and the cached row list for the current user (`none` = no/invalidated
cache entry). -/
structure AppState where
  store : List SessionRow
  cache : Option CacheEntry
deriving DecidableEq, Repr

/-- Modelled from the spec: `sheets.get_all_sessions(user_id)` returns all
records owned by `user_id` (spec 4.2, `list`). -/
def get_all_sessions (store : List SessionRow) (uid : String) : List SessionRow :=
  store.filter (fun r => r.userId = uid)

/-- app.py lines 34-43: `load_user_data` with `st.cache_data(ttl=300)`.
Returns the new state, the row list the page sees, and whether the remote
repository was actually read (cache miss or expired entry). -/
def load_user_data (s : AppState) (uid : String) : AppState × List SessionRow × Bool :=
  match s.cache with
  | some e =>
    if e.age < 300 then (s, e.data, false)
    else
      let d := get_all_sessions s.store uid
      ({ s with cache := some { data := d, age := 0 } }, d, true)
  | none =>
    let d := get_all_sessions s.store uid
    ({ s with cache := some { data := d, age := 0 } }, d, true)

/-- Modelled from the spec: `sheets.add_session` assigns a fresh id, stamps
the user id and appends one row, reporting success/failure (spec 4.2,
`create`).  `row` is the appended row; `ok` is the reported outcome. -/
def add_session (store : List SessionRow) (row : SessionRow) (ok : Bool) :
    Bool × List SessionRow :=
  if ok then (true, store ++ [row]) else (false, store)

/-- Overwrite the non-key fields of a row (`updated_data` omits SessionID
and UserID, app.py lines 221-229). -/
def applyFields (r : SessionRow) (f : SessionFields) : SessionRow :=
  { r with
    date := f.date
    duration := f.duration
    intensity := f.intensity
    songs := f.songs
    mood := f.mood
    calories := f.calories }

/-- Modelled from the spec: `sheets.update_session` rewrites the non-key
fields of the row matching `sid`, reporting success/failure (spec 4.2,
`update`). -/
def update_session (store : List SessionRow) (sid : List Char) (f : SessionFields)
    (ok : Bool) : Bool × List SessionRow :=
  if ok then
    (true, store.map (fun r => if r.sessionId = sid then applyFields r f else r))
  else (false, store)

/-- Modelled from the spec: `sheets.delete_session` removes the row matching
`sid`, reporting success/failure (spec 4.2, `delete`). -/
def delete_session (store : List SessionRow) (sid : List Char) (ok : Bool) :
    Bool × List SessionRow :=
  if ok then (true, store.filter (fun r => !(r.sessionId = sid : Bool))) else (false, store)

/-- app.py lines 78-82: on submit, call `sheets.add_session`; only if it
reports success, `load_user_data.clear()` then `st.rerun()`.  The returned
Bool records whether `st.rerun` was called. -/
def logSubmit (s : AppState) (row : SessionRow) (ok : Bool) : AppState × Bool :=
  let res := add_session s.store row ok
  if res.1 then ({ store := res.2, cache := none }, true)
  else ({ s with store := res.2 }, false)

/-- app.py lines 231-233: on update submit, call `sheets.update_session`;
only on success clear the cache and rerun. -/
def updateSubmit (s : AppState) (sid : List Char) (f : SessionFields) (ok : Bool) :
    AppState × Bool :=
  let res := update_session s.store sid f ok
  if res.1 then ({ store := res.2, cache := none }, true)
  else ({ s with store := res.2 }, false)

/-- app.py lines 240-244: on delete click, call `sheets.delete_session`;
only on success clear the cache and rerun. -/
def deleteClick (s : AppState) (sid : List Char) (ok : Bool) : AppState × Bool :=
  let res := delete_session s.store sid ok
  if res.1 then ({ store := res.2, cache := none }, true)
  else ({ s with store := res.2 }, false)

/-- The sidebar navigation selection (app.py line 29). -/
inductive Page
  | logSession
  | dashboard
  | manage
deriving DecidableEq, Repr

/-- What one top-level run of the script renders. -/
inductive RenderOut
  | loginPrompt
  | logView
  | dashboardView
  | manageView
deriving DecidableEq, Repr

/-- Outcome of one top-level run: what was rendered, the resulting state,
and whether the repository list operation was invoked. -/
structure RunResult where
  render : RenderOut
  state : AppState
  repoListCalled : Bool
deriving DecidableEq, Repr

/-- app.py lines 16-47/85/153: authenticate; if no user id, show the login
prompt and `st.stop()` (nothing further runs); otherwise load the user's
rows through the cache and dispatch on the sidebar selection.
`authResult` is the value `auth.authenticate_user()` returned. -/
def runApp (authResult : Option String) (page : Page) (s : AppState) : RunResult :=
  match authResult with
  | none => { render := RenderOut.loginPrompt, state := s, repoListCalled := false }
  | some uid =>
    let l := load_user_data s uid
    let r :=
      match page with
      | Page.logSession => RenderOut.logView
      | Page.dashboard => RenderOut.dashboardView
      | Page.manage => RenderOut.manageView
    { render := r, state := l.1, repoListCalled := l.2.2 }

/- ---------------------------------------------------------------------
C10: the mood-trend pipeline works on a copy (app.py lines 110-121).
DataFrame variables are references into a heap of frames; `.copy()`
allocates a fresh cell and the in-place operations (`dropna(inplace=True)`,
column assignment) mutate only the addressed cell.
--------------------------------------------------------------------- -/

/-- A frame as manipulated by the mood-trend code: rows plus the optional
`MoodValue` column (absent in the cached frame, added at line 121). -/
structure MoodFrame where
  rows : List (SessionRow × Option ℚ)
deriving DecidableEq, Repr

/-- View the cached DataFrame rows as a frame without a MoodValue column. -/
def toMoodFrame (rows : List SessionRow) : MoodFrame :=
  { rows := rows.map (fun r => (r, none)) }

/-- A heap of frames; an address is an index into `cells`. -/
structure FrameHeap where
  cells : List MoodFrame
deriving DecidableEq, Repr

/-- Read the frame at address `a`. -/
def FrameHeap.getCell (h : FrameHeap) (a : Nat) : MoodFrame :=
  h.cells.getD a { rows := [] }

/-- Overwrite the frame at address `a` (an in-place pandas operation). -/
def FrameHeap.setCell (h : FrameHeap) (a : Nat) (v : MoodFrame) : FrameHeap :=
  { cells := h.cells.set a v }

/-- Allocate a fresh cell holding `v` (what `.copy()` does), returning the
new heap and the fresh address. -/
def FrameHeap.alloc (h : FrameHeap) (v : MoodFrame) : FrameHeap × Nat :=
  ({ cells := h.cells ++ [v] }, h.cells.length)

/-- app.py lines 114-115 on the working frame: coerce dates (identity on our
already-parsed representation) and drop the rows whose date is `NaT`. -/
def coerce_and_drop (mf : MoodFrame) : MoodFrame :=
  { rows := mf.rows.filter (fun p => p.1.date.isSome) }

/-- app.py line 121: add the `MoodValue` column. -/
def add_mood_value (mf : MoodFrame) : MoodFrame :=
  { rows := mf.rows.map (fun p => (p.1, some (moodValue p.1.mood))) }

/-- app.py lines 112-121: `df_mood = user_sessions_df.copy()` (fresh cell),
then the in-place date coercion / row dropping / MoodValue assignment, all
addressed at the copy.  Returns the final heap and the copy's address. -/
def renderMoodTrendHeap (h : FrameHeap) (userAddr : Nat) : FrameHeap × Nat :=
  let alloc1 := h.alloc (h.getCell userAddr)
  let h1 := alloc1.1
  let a := alloc1.2
  let h2 := h1.setCell a (coerce_and_drop (h1.getCell a))
  let h3 := h2.setCell a (add_mood_value (h2.getCell a))
  (h3, a)

/- ---------------------------------------------------------------------
C2: Manage view session labels and their resolution (app.py lines 175-194).
Label (line 177):
  date.strftime(percent-Y-m-d) + " (" + Duration + " min) - " + id[:8] + "..."
Resolution (lines 188-193):
  selected_option.split(" - ")[-1].replace("...", "") as a startswith
  filter over the SessionID column, first match taken.
Strings are modelled as `List Char`; the splitting and replacing are
implemented exactly as Python does them (left-to-right, non-overlapping).
--------------------------------------------------------------------- -/

/-- The decimal digit character for `n` (callers pass `n < 10`). -/
def digitChar : Nat → Char
  | 0 => '0'
  | 1 => '1'
  | 2 => '2'
  | 3 => '3'
  | 4 => '4'
  | 5 => '5'
  | 6 => '6'
  | 7 => '7'
  | 8 => '8'
  | _ => '9'

/-- Decimal digits of `n`, most significant first (fuel-driven so the
recursion is structural; `fuel = n + 1` always suffices). -/
def natCharsAux : Nat → Nat → List Char
  | 0, _ => []
  | fuel + 1, n =>
    if n < 10 then [digitChar n]
    else natCharsAux fuel (n / 10) ++ [digitChar (n % 10)]

/-- Decimal representation of a natural number. -/
def natChars (n : Nat) : List Char :=
  natCharsAux (n + 1) n

/-- Left-pad with zeros to width `k` (strftime zero-padding). -/
def padZeros (k : Nat) (cs : List Char) : List Char :=
  List.replicate (k - cs.length) '0' ++ cs

/-- `strftime(percent-Y-m-d)`: `YYYY-MM-DD`. -/
def dateChars (d : DateVal) : List Char :=
  padZeros 4 (natChars d.year) ++ '-' :: (padZeros 2 (natChars d.month) ++ '-' :: padZeros 2 (natChars d.day))

/-- Date text used in the label; `NaT` for an unparsed date. -/
def dateCharsOpt : Option DateVal → List Char
  | none => ['N', 'a', 'T']
  | some d => dateChars d

/-- Decimal representation of an integer (what the f-string interpolates
for `Duration`). -/
def intChars (n : Int) : List Char :=
  if n < 0 then '-' :: natChars (-n).toNat else natChars n.toNat

/-- The part of the label before the template's `" - "`:
`"<date> (<duration> min)"`. -/
def labelPre (r : SessionRow) : List Char :=
  dateCharsOpt r.date ++ [' ', '('] ++ intChars r.duration ++ [' ', 'm', 'i', 'n', ')']

/-- app.py line 177: the display label
`"<date> (<duration> min) - <first 8 chars of id>..."`. -/
def session_option (r : SessionRow) : List Char :=
  labelPre r ++ [' ', '-', ' '] ++ r.sessionId.take 8 ++ ['.', '.', '.']

/-- Does the list start with the separator `" - "`? -/
def isSepHead (l : List Char) : Bool :=
  match l with
  | c1 :: c2 :: c3 :: _ =>
    if c1 = ' ' then (if c2 = '-' then (if c3 = ' ' then true else false) else false)
    else false
  | _ => false

/-- Does `" - "` occur anywhere in the list? -/
def hasSep : List Char → Bool
  | [] => false
  | c :: r => isSepHead (c :: r) || hasSep r

/-- The last piece of Python's `split(" - ")`: the suffix after the final
separator occurrence found by a left-to-right, non-overlapping scan. -/
def lastPiece : List Char → List Char
  | [] => []
  | c :: r =>
    if isSepHead (c :: r) then
      match r with
      | _ :: _ :: r2 => lastPiece r2
      | _ => []
    else if hasSep r then lastPiece r else c :: r

/-- Does the list start with `"..."`? -/
def isDots (l : List Char) : Bool :=
  match l with
  | c1 :: c2 :: c3 :: _ =>
    if c1 = '.' then (if c2 = '.' then (if c3 = '.' then true else false) else false)
    else false
  | _ => false

/-- Does `"..."` occur anywhere in the list? -/
def hasDots : List Char → Bool
  | [] => false
  | c :: r => isDots (c :: r) || hasDots r

/-- Python's `replace("...", "")`: delete every occurrence of `"..."`,
scanning left to right without overlap. -/
def stripDots : List Char → List Char
  | [] => []
  | c :: r =>
    if isDots (c :: r) then
      match r with
      | _ :: _ :: r2 => stripDots r2
      | _ => []
    else c :: stripDots r

/-- app.py line 188: `selected_option.split(" - ")[-1].replace("...", "")`. -/
def extractFragment (label : List Char) : List Char :=
  stripDots (lastPiece label)

/-- app.py lines 191-193: boolean `startswith` mask over the SessionID
column, then `iloc[0]` — the first matching row, if any. -/
def selected_session_row (label : List Char) (rows : List SessionRow) : Option SessionRow :=
  (rows.filter (fun q => (extractFragment label).isPrefixOf q.sessionId)).head?

/-- The resolution the claim describes: the first row in list order whose
session id starts with the 8-character fragment of the selected row's id. -/
def claimedResolution (r : SessionRow) (rows : List SessionRow) : Option SessionRow :=
  rows.find? (fun q => (r.sessionId.take 8).isPrefixOf q.sessionId)

/- ---------------------------------------------------------------------
Concrete data used by witnesses and the C2 counterexample.
--------------------------------------------------------------------- -/

/-- An ordinary session row. -/
def exRow1 : SessionRow :=
  { sessionId := "a1b2c3d4e5f6".toList, userId := "U1",
    date := some { year := 2024, month := 1, day := 1 },
    duration := 60, intensity := "Medium", mood := "Happy", calories := 300, songs := "" }

/-- A second ordinary session row. -/
def exRow2 : SessionRow :=
  { sessionId := "f6e5d4c3b2a1".toList, userId := "U1",
    date := some { year := 2024, month := 1, day := 2 },
    duration := 30, intensity := "Low", mood := "Tired", calories := 150, songs := "notes" }

/-- A two-row DataFrame with all columns present. -/
def exDf : DataFrame :=
  { rows := [exRow1, exRow2], hasDate := true, hasMood := true,
    hasDuration := true, hasCalories := true, hasSessionId := true }

/-- A non-empty DataFrame lacking the Duration and Calories columns. -/
def dfNoCols : DataFrame :=
  { rows := [exRow1], hasDate := true, hasMood := true,
    hasDuration := false, hasCalories := false, hasSessionId := true }

/-- A row whose session id's first 8 characters contain `"..."`. -/
def cxRow1 : SessionRow :=
  { sessionId := "XY...ABCZW12".toList, userId := "U1",
    date := some { year := 2024, month := 1, day := 1 },
    duration := 60, intensity := "Medium", mood := "Happy", calories := 300, songs := "" }

/-- A second row whose id starts with the dot-stripped fragment of `cxRow1`. -/
def cxRow2 : SessionRow :=
  { sessionId := "XYABC999".toList, userId := "U1",
    date := some { year := 2024, month := 1, day := 2 },
    duration := 45, intensity := "Low", mood := "Tired", calories := 200, songs := "" }

/-- A one-cell heap holding the cached frame. -/
def exHeap : FrameHeap :=
  { cells := [toMoodFrame [exRow1, exRow2]] }

/- ---------------------------------------------------------------------
Claim theorems (C1, C3-C10; C2 follows after its lemma cluster).
--------------------------------------------------------------------- -/

/-- C1: the Dashboard's mood-to-ordinal mapping sends Tired to 1, Neutral
to 2, Achieved to 3, Happy to 4, Energized to 5, and every other string
(including missing/legacy values) to 2.5. -/
theorem mood_mapping_ordinal (m : String)
    (h : m ∉ ["Tired", "Neutral", "Achieved", "Happy", "Energized"]) :
    moodValue "Tired" = 1 ∧ moodValue "Neutral" = 2 ∧ moodValue "Achieved" = 3 ∧
    moodValue "Happy" = 4 ∧ moodValue "Energized" = 5 ∧ moodValue m = 5 / 2 := by
  refine ⟨rfl, rfl, rfl, rfl, rfl, ?_⟩
  simp only [List.mem_cons, List.mem_singleton, not_or] at h
  obtain ⟨h1, h2, h3, h4, h5⟩ := h
  simp [moodValue, mood_mapping, h1, h2, h3, h4, h5]

/-- C1 witness: a concrete unknown mood string maps to 2.5. -/
theorem mood_mapping_ordinal_witness :
    "Sleepy" ∉ ["Tired", "Neutral", "Achieved", "Happy", "Energized"] ∧
    (moodValue "Tired" = 1 ∧ moodValue "Neutral" = 2 ∧ moodValue "Achieved" = 3 ∧
      moodValue "Happy" = 4 ∧ moodValue "Energized" = 5 ∧ moodValue "Sleepy" = 5 / 2) :=
  ⟨by decide, mood_mapping_ordinal "Sleepy" (by decide)⟩

/-- C3: for create, update and delete, a successful repository call clears
the cached row list (and triggers the rerun) before the page re-renders, so
the immediately following read re-queries the repository and reflects the
mutated store, whatever the prior cache entry and its age were. -/
theorem mutation_success_invalidates_cache (s : AppState) (uid : String)
    (row : SessionRow) (sid : List Char) (f : SessionFields) :
    ((logSubmit s row true).1.cache = none ∧ (logSubmit s row true).2 = true ∧
      (load_user_data (logSubmit s row true).1 uid).2.1 =
        get_all_sessions (logSubmit s row true).1.store uid) ∧
    ((updateSubmit s sid f true).1.cache = none ∧ (updateSubmit s sid f true).2 = true ∧
      (load_user_data (updateSubmit s sid f true).1 uid).2.1 =
        get_all_sessions (updateSubmit s sid f true).1.store uid) ∧
    ((deleteClick s sid true).1.cache = none ∧ (deleteClick s sid true).2 = true ∧
      (load_user_data (deleteClick s sid true).1 uid).2.1 =
        get_all_sessions (deleteClick s sid true).1.store uid) :=
  ⟨⟨rfl, rfl, rfl⟩, ⟨rfl, rfl, rfl⟩, ⟨rfl, rfl, rfl⟩⟩

/-- C4: when the repository call reports failure, nothing is invalidated and
no rerun is triggered: the state after the failed create/update/delete is
exactly the prior state. -/
theorem mutation_failure_preserves_cache (s : AppState) (row : SessionRow)
    (sid : List Char) (f : SessionFields) :
    logSubmit s row false = (s, false) ∧
    updateSubmit s sid f false = (s, false) ∧
    deleteClick s sid false = (s, false) :=
  ⟨rfl, rfl, rfl⟩

/-- C5: on a non-empty row list with the Duration and Calories columns
present, the Dashboard's summary statistics are the record count, the
Duration sum divided by 60, the arithmetic mean of Duration, and the
Calories sum (the spec-side definitions). -/
theorem dashboard_summary_stats (df : DataFrame) (hne : df.rows ≠ [])
    (hd : df.hasDuration = true) (hc : df.hasCalories = true) :
    total_sessions df = df.rows.length ∧
    total_hours df = specTotalHours df ∧
    avg_duration df = specMeanDuration df ∧
    total_calories df = specTotalCalories df := by
  refine ⟨rfl, ?_, ?_, ?_⟩
  · simp [total_hours, specTotalHours, hd]
  · simp [avg_duration, specMeanDuration, total_sessions, hd]
  · simp [total_calories, specTotalCalories, hc]

/-- C5 witness: the summary statistics at a concrete two-row DataFrame. -/
theorem dashboard_summary_stats_witness :
    exDf.rows ≠ [] ∧ exDf.hasDuration = true ∧ exDf.hasCalories = true ∧
    (total_sessions exDf = exDf.rows.length ∧
      total_hours exDf = specTotalHours exDf ∧
      avg_duration exDf = specMeanDuration exDf ∧
      total_calories exDf = specTotalCalories exDf) :=
  ⟨by decide, by decide, by decide,
    dashboard_summary_stats exDf (by decide) (by decide) (by decide)⟩

/-- C6: when authentication yields no user id, the run renders only the
login prompt: the state (store and cache) is untouched, no repository list
read happens, and no view is reached from which a mutation could be
issued. -/
theorem unauthenticated_run_stops (page : Page) (s : AppState) :
    runApp none page s =
      { render := RenderOut.loginPrompt, state := s, repoListCalled := false } :=
  rfl

/-- C7: the Manage view's edit form pre-fills the mood selector with
Neutral when the stored mood is outside the allowed enumeration and with
the stored value when it is allowed, and likewise for intensity with
Medium. -/
theorem edit_form_enum_fallback (m i m' i' : String)
    (hm : m ∉ mood_options) (hi : i ∉ intensity_options)
    (hm' : m' ∈ mood_options) (hi' : i' ∈ intensity_options) :
    moodPrefill m = "Neutral" ∧ intensityPrefill i = "Medium" ∧
    moodPrefill m' = m' ∧ intensityPrefill i' = i' := by
  refine ⟨?_, ?_, ?_, ?_⟩
  · simp only [moodPrefill, current_mood_index]
    rw [if_neg hm]
    rfl
  · simp only [intensityPrefill, current_intensity_index]
    rw [if_neg hi]
    rfl
  · fin_cases hm' <;> rfl
  · fin_cases hi' <;> rfl

/-- C7 witness: concrete legacy and allowed values. -/
theorem edit_form_enum_fallback_witness :
    "Ecstatic" ∉ mood_options ∧ "Extreme" ∉ intensity_options ∧
    "Achieved" ∈ mood_options ∧ "High" ∈ intensity_options ∧
    (moodPrefill "Ecstatic" = "Neutral" ∧ intensityPrefill "Extreme" = "Medium" ∧
      moodPrefill "Achieved" = "Achieved" ∧ intensityPrefill "High" = "High") :=
  ⟨by decide, by decide, by decide, by decide,
    edit_form_enum_fallback "Ecstatic" "Extreme" "Achieved" "High"
      (by decide) (by decide) (by decide) (by decide)⟩

/-- C8: the mood-trend computation keeps exactly the rows whose date
parsed; with zero survivors it renders the placeholder and computes no
chart, and with at least one survivor it charts exactly the surviving
rows. -/
theorem mood_trend_date_filter (df : DataFrame) (hd : df.hasDate = true)
    (hm : df.hasMood = true) (hne : df.rows ≠ []) :
    (df_mood_rows df = [] → moodTrendRender df = MoodTrendRender.notEnoughValidDates) ∧
    (df_mood_rows df ≠ [] →
      moodTrendRender df =
        MoodTrendRender.chart ((df_mood_rows df).map
          (fun r => (r.date.getD { year := 0, month := 0, day := 0 }, moodValue r.mood)))) := by
  constructor
  · intro h0
    simp [moodTrendRender, hd, hm, hne, h0]
  · intro h1
    simp [moodTrendRender, hd, hm, hne, h1]

/-- C8 witness: both survivors of a concrete DataFrame are charted. -/
theorem mood_trend_date_filter_witness :
    exDf.hasDate = true ∧ exDf.hasMood = true ∧ exDf.rows ≠ [] ∧
    ((df_mood_rows exDf = [] → moodTrendRender exDf = MoodTrendRender.notEnoughValidDates) ∧
      (df_mood_rows exDf ≠ [] →
        moodTrendRender exDf =
          MoodTrendRender.chart ((df_mood_rows exDf).map
            (fun r => (r.date.getD { year := 0, month := 0, day := 0 }, moodValue r.mood))))) :=
  ⟨by decide, by decide, by decide,
    mood_trend_date_filter exDf (by decide) (by decide) (by decide)⟩

/-- C9: on a non-empty row list, a missing Duration column makes total
hours and average duration 0, and a missing Calories column makes total
calories 0. -/
theorem missing_columns_default_zero (df : DataFrame) (hne : df.rows ≠ []) :
    (df.hasDuration = false → total_hours df = 0 ∧ avg_duration df = 0) ∧
    (df.hasCalories = false → total_calories df = 0) := by
  constructor
  · intro hd
    constructor
    · simp [total_hours, hd]
    · simp [avg_duration, hd]
  · intro hc
    simp [total_calories, hc]

/-- C9 witness: the defaults at a concrete DataFrame lacking both columns. -/
theorem missing_columns_default_zero_witness :
    dfNoCols.rows ≠ [] ∧ dfNoCols.hasDuration = false ∧ dfNoCols.hasCalories = false ∧
    total_hours dfNoCols = 0 ∧ avg_duration dfNoCols = 0 ∧ total_calories dfNoCols = 0 :=
  ⟨by decide, by decide, by decide,
    ((missing_columns_default_zero dfNoCols (by decide)).1 (by decide)).1,
    ((missing_columns_default_zero dfNoCols (by decide)).1 (by decide)).2,
    (missing_columns_default_zero dfNoCols (by decide)).2 (by decide)⟩

/-- C10: rendering the mood trend mutates only the freshly allocated copy;
the cached frame the other views read is unchanged by the pipeline. -/
theorem mood_trend_preserves_cached_frame (h : FrameHeap) (ua : Nat)
    (hlt : ua < h.cells.length) :
    (renderMoodTrendHeap h ua).1.getCell ua = h.getCell ua := by
  have hne : h.cells.length ≠ ua := (Nat.ne_of_lt hlt).symm
  simp only [renderMoodTrendHeap, FrameHeap.alloc, FrameHeap.setCell, FrameHeap.getCell]
  simp only [List.getD_eq_getElem?_getD, List.getElem?_set_ne hne, List.getElem?_append]
  rw [if_pos hlt]

/-- C10 witness: the cached frame of a concrete one-cell heap survives the
pipeline unchanged. -/
theorem mood_trend_preserves_cached_frame_witness :
    0 < exHeap.cells.length ∧
    (renderMoodTrendHeap exHeap 0).1.getCell 0 = exHeap.getCell 0 :=
  ⟨by decide, mood_trend_preserves_cached_frame exHeap 0 (by decide)⟩

/- ---------------------------------------------------------------------
C2 lemma cluster: how `split(" - ")[-1].replace("...", "")` behaves on
labels built by `session_option`.
--------------------------------------------------------------------- -/

/-- A list not starting with a space does not start with the separator. -/
theorem isSepHead_of_head_ne {c : Char} (h : c ≠ ' ') (t : List Char) :
    isSepHead (c :: t) = false := by
  cases t with
  | nil => rfl
  | cons x t' =>
    cases t' with
    | nil => rfl
    | cons y t'' => simp [isSepHead, h]

/-- A list whose second character is not a dash does not start with the
separator. -/
theorem isSepHead_of_second_ne {x : Char} (h : x ≠ '-') (c : Char) (t : List Char) :
    isSepHead (c :: x :: t) = false := by
  cases t with
  | nil => rfl
  | cons y t' => simp [isSepHead, h]

/-- A list whose third character is not a space does not start with the
separator. -/
theorem isSepHead_of_third_ne {y : Char} (h : y ≠ ' ') (c x : Char) (t : List Char) :
    isSepHead (c :: x :: y :: t) = false := by
  simp [isSepHead, h]

/-- A separator occurrence in `b` is one in `a ++ b`. -/
theorem hasSep_append_right (a b : List Char) (hb : hasSep b = true) :
    hasSep (a ++ b) = true := by
  induction a with
  | nil => exact hb
  | cons c a' ih => simp [hasSep, ih]

/-- Prepending space-free text does not add or remove separator
occurrences. -/
theorem hasSep_append_spaceFree (a b : List Char) (ha : ∀ c ∈ a, c ≠ ' ') :
    hasSep (a ++ b) = hasSep b := by
  induction a with
  | nil => rfl
  | cons c a' ih =>
    have hc : c ≠ ' ' := ha c (List.mem_cons_self c a')
    have ih' := ih (fun x hx => ha x (List.mem_cons_of_mem c hx))
    simp [hasSep, isSepHead_of_head_ne hc, ih']

/-- Without any separator occurrence, the last split piece is the whole
string. -/
theorem lastPiece_of_hasSep_false (l : List Char) (h : hasSep l = false) :
    lastPiece l = l := by
  induction l with
  | nil => rfl
  | cons c r ih =>
    have h2 : isSepHead (c :: r) = false ∧ hasSep r = false := by simpa [hasSep] using h
    rw [lastPiece.eq_def]
    simp [h2.1, h2.2, ih h2.2]

/-- Consuming a leading separator. -/
theorem lastPiece_sep (t : List Char) :
    lastPiece (' ' :: '-' :: ' ' :: t) = lastPiece t :=
  rfl

/-- Dropping a separator-free head whose final character cannot begin or
continue a separator spanning into `b`. -/
theorem lastPiece_append_sep (a b : List Char) (ha : hasSep a = false)
    (hl : ∀ x, a.getLast? = some x → x ≠ ' ' ∧ x ≠ '-')
    (hb : hasSep b = true) :
    lastPiece (a ++ b) = lastPiece b := by
  induction a with
  | nil => rfl
  | cons c a' ih =>
    have hsp : isSepHead (c :: a') = false ∧ hasSep a' = false := by simpa [hasSep] using ha
    rcases a' with _ | ⟨z, a''⟩
    · have hc := hl c (by simp)
      have hne : isSepHead (c :: b) = false := isSepHead_of_head_ne hc.1 b
      rw [List.cons_append, List.nil_append, lastPiece.eq_def]
      simp [hne, hb]
    · have hne : isSepHead (c :: (z :: a'' ++ b)) = false := by
        rcases a'' with _ | ⟨y, a'''⟩
        · have hz := hl z (by simp)
          exact isSepHead_of_second_ne hz.2 c b
        · have h3 : isSepHead (c :: z :: y :: a''') = false := hsp.1
          simpa [isSepHead] using h3
      have hr : hasSep (z :: a'' ++ b) = true := hasSep_append_right _ b hb
      have hl' : ∀ x, (z :: a'').getLast? = some x → x ≠ ' ' ∧ x ≠ '-' := by
        intro x hx
        exact hl x (by rw [List.getLast?_cons_cons]; exact hx)
      have step := ih hsp.2 hl'
      rw [List.cons_append, lastPiece.eq_def]
      simp only [hne, Bool.false_eq_true, if_false, hr, if_true]
      exact step

/-- Appending the ellipsis to separator-free text keeps it
separator-free. -/
theorem hasSep_append_dots (l : List Char) (h : hasSep l = false) :
    hasSep (l ++ ['.', '.', '.']) = false := by
  induction l with
  | nil => rfl
  | cons c f ih =>
    have hsp : isSepHead (c :: f) = false ∧ hasSep f = false := by simpa [hasSep] using h
    have h2 := ih hsp.2
    have hhead : isSepHead (c :: (f ++ ['.', '.', '.'])) = false := by
      rcases f with _ | ⟨x, f'⟩
      · exact isSepHead_of_second_ne (by decide) c _
      · rcases f' with _ | ⟨y, f''⟩
        · exact isSepHead_of_third_ne (by decide) c x _
        · have h3 : isSepHead (c :: x :: y :: f'') = false := hsp.1
          simpa [isSepHead] using h3
    simp [hasSep, hhead, h2]

/-- Python's `replace("...", "")` recovers ellipsis-free text from
`text ++ "..."`. -/
theorem stripDots_append_dots (l : List Char) (h : hasDots l = false) :
    stripDots (l ++ ['.', '.', '.']) = l := by
  induction l with
  | nil => rfl
  | cons c f ih =>
    have hsp : isDots (c :: f) = false ∧ hasDots f = false := by simpa [hasDots] using h
    rcases f with _ | ⟨x, f'⟩
    · by_cases hc : c = '.'
      · subst hc
        rfl
      · have hd : isDots (c :: '.' :: '.' :: ['.']) = false := by simp [isDots, hc]
        show stripDots (c :: '.' :: '.' :: ['.']) = [c]
        rw [stripDots.eq_def]
        simp only [hd, Bool.false_eq_true, if_false]
        rfl
    · rcases f' with _ | ⟨y, f''⟩
      · by_cases hc : c = '.' <;> by_cases hx : x = '.'
        · subst hc; subst hx
          rfl
        · subst hc
          have hd : isDots ('.' :: x :: '.' :: '.' :: ['.']) = false := by simp [isDots, hx]
          have hd2 : isDots (x :: '.' :: '.' :: ['.']) = false := by simp [isDots, hx]
          show stripDots ('.' :: x :: '.' :: '.' :: ['.']) = ['.', x]
          rw [stripDots.eq_def]
          simp only [hd, Bool.false_eq_true, if_false]
          rw [stripDots.eq_def]
          simp only [hd2, Bool.false_eq_true, if_false]
          rfl
        · subst hx
          have hd : isDots (c :: '.' :: '.' :: '.' :: ['.']) = false := by simp [isDots, hc]
          show stripDots (c :: '.' :: '.' :: '.' :: ['.']) = [c, '.']
          rw [stripDots.eq_def]
          simp only [hd, Bool.false_eq_true, if_false]
          rfl
        · have hd : isDots (c :: x :: '.' :: '.' :: ['.']) = false := by simp [isDots, hc]
          have hd2 : isDots (x :: '.' :: '.' :: ['.']) = false := by simp [isDots, hx]
          show stripDots (c :: x :: '.' :: '.' :: ['.']) = [c, x]
          rw [stripDots.eq_def]
          simp only [hd, Bool.false_eq_true, if_false]
          rw [stripDots.eq_def]
          simp only [hd2, Bool.false_eq_true, if_false]
          rfl
      · have hd : isDots (c :: (x :: y :: f'' ++ ['.', '.', '.'])) = false := by
          have h3 : isDots (c :: x :: y :: f'') = false := hsp.1
          simpa [isDots] using h3
        have step := ih hsp.2
        rw [List.cons_append, stripDots.eq_def]
        simp only [hd, Bool.false_eq_true, if_false]
        rw [step]

/-- The first filtered element is the first satisfying element. -/
theorem head?_filter_eq_find? {α : Type} (p : α → Bool) (l : List α) :
    (l.filter p).head? = l.find? p := by
  induction l with
  | nil => rfl
  | cons a t ih =>
    by_cases hp : p a = true
    · simp [List.filter_cons, List.find?_cons, hp]
    · simp [List.filter_cons, List.find?_cons, hp, ih]

/-- A take of a list is a Boolean prefix of it. -/
theorem take_isPrefixOf_self (n : Nat) (l : List Char) :
    (l.take n).isPrefixOf l = true := by
  induction l generalizing n with
  | nil => cases n <;> rfl
  | cons c t ih =>
    cases n with
    | zero => rfl
    | succ k => simp [List.take_succ_cons, List.isPrefixOf, ih]

/-- Decimal digit characters are never spaces. -/
theorem digitChar_ne_space (n : Nat) : digitChar n ≠ ' ' := by
  unfold digitChar
  split <;> decide

/-- The digits of a natural number contain no space. -/
theorem natCharsAux_ne_space (fuel : Nat) : ∀ (n : Nat), ∀ c ∈ natCharsAux fuel n, c ≠ ' ' := by
  induction fuel with
  | zero =>
    intro n c hc
    simp [natCharsAux] at hc
  | succ f ih =>
    intro n c hc
    rw [natCharsAux] at hc
    by_cases h10 : n < 10
    · rw [if_pos h10] at hc
      simp at hc
      subst hc
      exact digitChar_ne_space n
    · rw [if_neg h10] at hc
      rcases List.mem_append.mp hc with h1 | h2
      · exact ih (n / 10) c h1
      · simp at h2
        subst h2
        exact digitChar_ne_space (n % 10)

/-- Space-freeness is preserved by append. -/
theorem ne_space_append {a b : List Char} (ha : ∀ c ∈ a, c ≠ ' ')
    (hb : ∀ c ∈ b, c ≠ ' ') : ∀ c ∈ a ++ b, c ≠ ' ' := by
  intro c hc
  rcases List.mem_append.mp hc with h | h
  · exact ha c h
  · exact hb c h

/-- Space-freeness is preserved by cons of a non-space character. -/
theorem ne_space_cons {c0 : Char} {b : List Char} (hc0 : c0 ≠ ' ')
    (hb : ∀ c ∈ b, c ≠ ' ') : ∀ c ∈ c0 :: b, c ≠ ' ' := by
  intro c hc
  rcases List.mem_cons.mp hc with h | h
  · rw [h]; exact hc0
  · exact hb c h

/-- Zero padding adds no space. -/
theorem padZeros_ne_space (k : Nat) (cs : List Char) (h : ∀ c ∈ cs, c ≠ ' ') :
    ∀ c ∈ padZeros k cs, c ≠ ' ' :=
  ne_space_append
    (fun c hc => by rw [List.eq_of_mem_replicate hc]; decide) h

/-- The formatted date contains no space. -/
theorem dateChars_ne_space (d : DateVal) : ∀ c ∈ dateChars d, c ≠ ' ' :=
  ne_space_append
    (padZeros_ne_space 4 _ (natCharsAux_ne_space _ _))
    (ne_space_cons (by decide)
      (ne_space_append (padZeros_ne_space 2 _ (natCharsAux_ne_space _ _))
        (ne_space_cons (by decide) (padZeros_ne_space 2 _ (natCharsAux_ne_space _ _)))))

/-- The date text of the label contains no space. -/
theorem dateCharsOpt_ne_space (d : Option DateVal) : ∀ c ∈ dateCharsOpt d, c ≠ ' ' := by
  cases d with
  | none =>
    intro c hc
    fin_cases hc <;> decide
  | some v => exact dateChars_ne_space v

/-- The formatted duration contains no space. -/
theorem intChars_ne_space (n : Int) : ∀ c ∈ intChars n, c ≠ ' ' := by
  unfold intChars
  by_cases hn : n < 0
  · rw [if_pos hn]
    exact ne_space_cons (by decide) (natCharsAux_ne_space _ _)
  · rw [if_neg hn]
    exact natCharsAux_ne_space _ _

/-- The label part before the template separator contains no separator
occurrence. -/
theorem hasSep_labelPre (r : SessionRow) : hasSep (labelPre r) = false := by
  unfold labelPre
  rw [List.append_assoc, List.append_assoc]
  rw [hasSep_append_spaceFree _ _ (dateCharsOpt_ne_space r.date)]
  have h3 : hasSep (intChars r.duration ++ [' ', 'm', 'i', 'n', ')']) = false := by
    rw [hasSep_append_spaceFree _ _ (intChars_ne_space r.duration)]
    decide
  have h1 : isSepHead (' ' :: '(' :: (intChars r.duration ++ [' ', 'm', 'i', 'n', ')'])) = false :=
    isSepHead_of_second_ne (by decide) ' ' _
  have h2 : isSepHead ('(' :: (intChars r.duration ++ [' ', 'm', 'i', 'n', ')'])) = false :=
    isSepHead_of_head_ne (by decide) _
  simp [hasSep, h1, h2, h3]

/-- The label part before the template separator ends with a closing
parenthesis. -/
theorem labelPre_getLast (r : SessionRow) : (labelPre r).getLast? = some ')' := by
  unfold labelPre
  rw [show ([' ', 'm', 'i', 'n', ')'] : List Char) = [' ', 'm', 'i', 'n'] ++ [')'] from rfl]
  rw [← List.append_assoc, List.getLast?_concat]

/-- On a label built by `session_option`, the code's fragment extraction
returns exactly the 8-character id fragment, provided that fragment
contains neither the separator nor an ellipsis. -/
theorem extractFragment_session_option (r : SessionRow)
    (h1 : hasSep (r.sessionId.take 8) = false)
    (h2 : hasDots (r.sessionId.take 8) = false) :
    extractFragment (session_option r) = r.sessionId.take 8 := by
  unfold extractFragment session_option
  rw [List.append_assoc, List.append_assoc]
  rw [lastPiece_append_sep (labelPre r) _ (hasSep_labelPre r) ?hl ?hb]
  case hl =>
    intro x hx
    rw [labelPre_getLast r] at hx
    have hx' : ')' = x := Option.some.inj hx
    rw [← hx']
    exact ⟨by decide, by decide⟩
  case hb =>
    show hasSep (' ' :: '-' :: ' ' :: (r.sessionId.take 8 ++ ['.', '.', '.'])) = true
    simp [hasSep, isSepHead]
  show stripDots (lastPiece (' ' :: '-' :: ' ' :: (r.sessionId.take 8 ++ ['.', '.', '.']))) = _
  rw [lastPiece_sep]
  rw [lastPiece_of_hasSep_false _ (hasSep_append_dots _ h1)]
  exact stripDots_append_dots _ h2

/-- C2 counterexample: with two rows whose ids are `"XY...ABCZW12"` and
`"XYABC999"`, selecting the first row's label makes the code edit/delete
the second row, while the claimed rule (first row whose id starts with the
8-character fragment) picks the first row. -/
theorem session_label_resolution_counterexample :
    selected_session_row (session_option cxRow1) [cxRow1, cxRow2] = some cxRow2 ∧
    claimedResolution cxRow1 [cxRow1, cxRow2] = some cxRow1 ∧
    cxRow2 ≠ cxRow1 :=
  ⟨by decide, by decide, by decide⟩

/-- C2 (amended): labels are built as
`"<date> (<duration> min) - <first 8 chars of id>..."`, and the selected
label is resolved by splitting on `" - "`, taking the last piece, and
deleting every `"..."` occurrence; whenever the selected id's 8-character
fragment contains neither `"..."` nor `" - "`, that extraction returns
exactly the fragment, resolution picks the first row in list order whose
id starts with the fragment, and it always finds one. -/
theorem session_label_resolution_amended (rows : List SessionRow) (r : SessionRow)
    (hmem : r ∈ rows)
    (h1 : hasSep (r.sessionId.take 8) = false)
    (h2 : hasDots (r.sessionId.take 8) = false) :
    extractFragment (session_option r) = r.sessionId.take 8 ∧
    selected_session_row (session_option r) rows = claimedResolution r rows ∧
    (selected_session_row (session_option r) rows).isSome = true := by
  have he := extractFragment_session_option r h1 h2
  refine ⟨he, ?_, ?_⟩
  · unfold selected_session_row claimedResolution
    rw [he, head?_filter_eq_find?]
  · unfold selected_session_row
    rw [he, head?_filter_eq_find?]
    exact List.find?_isSome.mpr ⟨r, hmem, take_isPrefixOf_self 8 r.sessionId⟩

/-- C2 witness: a concrete well-behaved id resolves as the amended claim
states. -/
theorem session_label_resolution_amended_witness :
    exRow1 ∈ [exRow1, exRow2] ∧
    hasSep (exRow1.sessionId.take 8) = false ∧
    hasDots (exRow1.sessionId.take 8) = false ∧
    (extractFragment (session_option exRow1) = exRow1.sessionId.take 8 ∧
      selected_session_row (session_option exRow1) [exRow1, exRow2] =
        claimedResolution exRow1 [exRow1, exRow2] ∧
      (selected_session_row (session_option exRow1) [exRow1, exRow2]).isSome = true) :=
  ⟨by decide, by decide, by decide,
    session_label_resolution_amended [exRow1, exRow2] exRow1 (by decide) (by decide) (by decide)⟩
